import Mathlib

/-!
Verification of the alx-ehub-course-scraper repository.

This file shallowly embeds the data model and operations of the Python
sources (`courses/models.py`, `courses/course_finder.py`,
`auth/login_manager.py`) as executable Lean definitions and proves or
refutes the behavioural claims about them.

Conventions of the embedding:
* Python strings are Lean `String`; string helpers (`pyLower`, `pyInStr`,
  `pyStartsWith`, `pyTake`, `pyReplaceChar`) work on the underlying
  character list so that every definition kernel-evaluates.
* Python `datetime` values are modelled as `Nat` instants; the ordering
  `datetime.fromisoformat(a) < datetime.fromisoformat(b)` corresponds to
  `<` on `Nat`, and `strftime` timestamps are rendered with `toString`.
* Selenium DOM queries are I/O; a query's observable result (the list of
  elements it would return, each with its visibility and text) is taken
  as the input state of the modelled function.
* The filesystem that `SessionManager` manipulates is modelled as the
  association list of file names to contents inside the per-identity
  directory, plus a flag recording whether that directory exists.
-/

/-- Characters of the left string form a leading segment of the right list.
Models Python `str.startswith` at the character-list level. -/
def listIsPre : List Char → List Char → Bool
  | [], _ => true
  | _ :: _, [] => false
  | a :: as, b :: bs => a == b && listIsPre as bs

/-- The first list occurs contiguously inside the second.
Models Python's `in` operator on strings at the character-list level. -/
def listHasSub (pat : List Char) : List Char → Bool
  | [] => pat.isEmpty
  | c :: rest => listIsPre pat (c :: rest) || listHasSub pat rest

/-- Python `needle in haystack` for strings. -/
def pyInStr (needle haystack : String) : Bool :=
  listHasSub needle.data haystack.data

/-- Python `s.startswith(p)`. -/
def pyStartsWith (s p : String) : Bool :=
  listIsPre p.data s.data

/-- Python `s.lower()` (ASCII-faithful). -/
def pyLower (s : String) : String :=
  ⟨s.data.map Char.toLower⟩

/-- Python slice `s[:n]`. -/
def pyTake (s : String) (n : Nat) : String :=
  ⟨s.data.take n⟩

/-- Python `s.replace(old, new)` for a single-character pattern, which
substitutes every occurrence of the character. -/
def pyReplaceChar (old new : Char) (s : String) : String :=
  ⟨s.data.map (fun c => if c = old then new else c)⟩

/-- Python truthiness of a string: `bool(s)` is false exactly for `""`. -/
def pyTruthyStr (s : String) : Bool :=
  !s.data.isEmpty

/-- Python truthiness of an optional string: false for `None` and `""`. -/
def pyTruthyOpt : Option String → Bool
  | none => false
  | some s => pyTruthyStr s

/-- Python `s.isdigit()` (ASCII digits). -/
def pyIsDigitStr (s : String) : Bool :=
  !s.data.isEmpty && s.data.all Char.isDigit

namespace Models

/-- `Platform` enum of `courses/models.py` (lines 8-13). -/
inductive Platform
  | DASHBOARD
  | ATHENA
  | SAVANNAH
  | UNKNOWN
deriving DecidableEq, Repr

end Models

namespace Finder

/-- `Platform` enum of `courses/course_finder.py` (lines 25-29).  It is a
second, distinct enum class: it lacks `DASHBOARD` and its members are
different objects from the members of `models.Platform`. -/
inductive Platform
  | ATHENA
  | SAVANNAH
  | UNKNOWN
deriving DecidableEq, Repr

end Finder

/-- A Python `Course.platform` value at runtime: the field is dynamically
typed and receives members of either enum class, so it is modelled as the
sum of the two enum types. -/
inductive PlatformTag
  | models : Models.Platform → PlatformTag
  | finder : Finder.Platform → PlatformTag
deriving DecidableEq, Repr

/-- Python `==` on enum members: members compare equal only when they
belong to the same enum class and are the same member; members of
different enum classes are never equal. -/
def pyPlatformEq : PlatformTag → PlatformTag → Bool
  | .models a, .models b => decide (a = b)
  | .finder a, .finder b => decide (a = b)
  | _, _ => false

/-- A value stored in the free-form `metadata` dict of a `Course`. -/
inductive MetaVal
  | s : String → MetaVal
  | b : Bool → MetaVal
  | null
deriving DecidableEq, Repr

/-- The `Course` dataclass of `courses/models.py` (lines 15-29). -/
structure Course where
  name : String
  platform : PlatformTag := .models .UNKNOWN
  description : Option String := none
  start_date : Option String := none
  duration : Option String := none
  status : String := "Unknown"
  button_text : Option String := none
  button_link : Option String := none
  icon_svg : Option String := none
  course_id : Option String := none
  parent_course : Option String := none
  metadata : List (String × MetaVal) := []
deriving DecidableEq, Repr

/-- The `course_id` derivation of `Course.__post_init__`:
`name.lower().replace(' ', '_').replace('-', '_')`. -/
def deriveId (name : String) : String :=
  pyReplaceChar '-' '_' (pyReplaceChar ' ' '_' (pyLower name))

/-- `Course.__post_init__` (models.py lines 31-33): when `course_id` is
falsy (`None` or `""`) and `name` is truthy, derive the id from the name.
Every Python-side construction of a `Course` runs this. -/
def postInit (c : Course) : Course :=
  if !pyTruthyOpt c.course_id && pyTruthyStr c.name then
    { c with course_id := some (deriveId c.name) }
  else
    c

/-- `Course.is_accessible` (models.py lines 35-38):
`bool(button_link) and button_link != "#" and "javascript:void" not in button_link`. -/
def Course.is_accessible (c : Course) : Bool :=
  match c.button_link with
  | none => false
  | some s => pyTruthyStr s && !(s == "#") && !(pyInStr "javascript:void" s)

/-- Main-domain base URL hard-coded in `Course.full_url`. -/
def ehubBase : String := "https://ehub.alxafrica.com"

/-- Savannah-domain base URL hard-coded in `Course.full_url`. -/
def savannahBase : String := "https://savannah.alxafrica.com"

/-- `Course.full_url` (models.py lines 40-52). -/
def Course.full_url (c : Course) : Option String :=
  match c.button_link with
  | none => none
  | some s =>
    if !pyTruthyStr s then none
    else if pyStartsWith s "http" then some s
    else if pyStartsWith s "/" then
      if pyPlatformEq c.platform (.models .SAVANNAH) then
        some (savannahBase ++ s)
      else
        some (ehubBase ++ s)
    else some s

/-- The `CourseList` dataclass of `courses/models.py` (lines 73-77). -/
structure CourseList where
  courses : List Course
  timestamp : Nat := 0
deriving DecidableEq, Repr

/-- `CourseList.by_platform` (models.py lines 89-91). -/
def CourseList.by_platform (cl : CourseList) (p : PlatformTag) : List Course :=
  cl.courses.filter (fun c => pyPlatformEq c.platform p)

/-- `CourseList.by_status` (models.py lines 93-95). -/
def CourseList.by_status (cl : CourseList) (status : String) : List Course :=
  cl.courses.filter (fun c => c.status == status)

/-- `CourseList.accessible_courses` (models.py lines 85-87). -/
def CourseList.accessible_courses (cl : CourseList) : List Course :=
  cl.courses.filter (fun c => c.is_accessible)

/-- The per-platform counts computed inside `CourseList.to_dict`
(models.py lines 103-106): `by_platform` is invoked with
`models.Platform.ATHENA` and `models.Platform.SAVANNAH`. -/
def CourseList.platform_counts (cl : CourseList) : Nat × Nat :=
  ((cl.by_platform (.models .ATHENA)).length,
   (cl.by_platform (.models .SAVANNAH)).length)

-- Basic facts used throughout about the embedding helpers.

theorem listIsPre_slash {l : List Char} (h : listIsPre ['/'] l = true) :
    ∃ rest, l = '/' :: rest := by
  cases l with
  | nil => simp [listIsPre] at h
  | cons c cs =>
    refine ⟨cs, ?_⟩
    simp [listIsPre] at h
    simp [h.symm]

theorem pyStartsWith_slash_ne_http {s : String}
    (h : pyStartsWith s "/" = true) : pyStartsWith s "http" = false := by
  unfold pyStartsWith at h ⊢
  obtain ⟨rest, hr⟩ := listIsPre_slash h
  rw [hr]
  simp [listIsPre]

theorem pyStartsWith_slash_truthy {s : String}
    (h : pyStartsWith s "/" = true) : pyTruthyStr s = true := by
  unfold pyStartsWith at h
  obtain ⟨rest, hr⟩ := listIsPre_slash h
  unfold pyTruthyStr
  rw [hr]
  simp

theorem pyStartsWith_http_truthy {s : String}
    (h : pyStartsWith s "http" = true) : pyTruthyStr s = true := by
  unfold pyStartsWith at h
  unfold pyTruthyStr
  cases hd : s.data with
  | nil => rw [hd] at h; simp [listIsPre] at h
  | cons c cs => simp

theorem pyPlatformEq_models_savannah (t : PlatformTag) :
    pyPlatformEq t (.models .SAVANNAH) = true ↔ t = .models .SAVANNAH := by
  cases t with
  | models p => cases p <;> simp [pyPlatformEq]
  | finder p => cases p <;> simp [pyPlatformEq]

-- ## Claim C8: `Course.full_url` resolution

/-- C8 (confirmed): for a course whose `button_link` is root-relative
(begins with `/`), `full_url` is the Savannah domain plus the link when the
platform equals `models.Platform.SAVANNAH` and the main (ehub) domain plus
the link for every other platform tag; a `button_link` that starts with
`http` passes through unchanged. -/
theorem full_url_resolution (c : Course) (link : String)
    (hb : c.button_link = some link) :
    (pyStartsWith link "/" = true →
      (c.platform = .models .SAVANNAH →
        c.full_url = some (savannahBase ++ link)) ∧
      (c.platform ≠ .models .SAVANNAH →
        c.full_url = some (ehubBase ++ link))) ∧
    (pyStartsWith link "http" = true → c.full_url = some link) := by
  constructor
  · intro hs
    have ht := pyStartsWith_slash_truthy hs
    have hh := pyStartsWith_slash_ne_http hs
    constructor
    · intro hp
      unfold Course.full_url
      rw [hb]
      simp [ht, hh, hs, hp, pyPlatformEq]
    · intro hp
      have hq : pyPlatformEq c.platform (.models .SAVANNAH) = false := by
        cases hq : pyPlatformEq c.platform (.models .SAVANNAH)
        · rfl
        · exact absurd ((pyPlatformEq_models_savannah _).1 hq) hp
      unfold Course.full_url
      rw [hb]
      simp [ht, hh, hs, hq]
  · intro hs
    have ht := pyStartsWith_http_truthy hs
    unfold Course.full_url
    rw [hb]
    simp [ht, hs]

/-- A Savannah-tagged (data-model enum) course with a root-relative link. -/
def savRelCourse : Course :=
  postInit { name := "S", platform := .models .SAVANNAH, button_link := some "/p" }

/-- An Athena-tagged (data-model enum) course with a root-relative link. -/
def athRelCourse : Course :=
  postInit { name := "A", platform := .models .ATHENA, button_link := some "/p" }

/-- A course with an absolute link. -/
def absLinkCourse : Course :=
  postInit { name := "H", button_link := some "http://x" }

/-- Witness for C8 at concrete inputs. -/
theorem full_url_resolution_witness :
    savRelCourse.full_url = some "https://savannah.alxafrica.com/p" ∧
    athRelCourse.full_url = some "https://ehub.alxafrica.com/p" ∧
    absLinkCourse.full_url = some "http://x" :=
  ⟨((full_url_resolution savRelCourse "/p" rfl).1 (by decide)).1 rfl,
   ((full_url_resolution athRelCourse "/p" rfl).1 (by decide)).2 (by decide),
   (full_url_resolution absLinkCourse "http://x" rfl).2 (by decide)⟩

-- ## Claim C9: `Course.is_accessible`

/-- A course whose `button_link` is the empty string. -/
def emptyLinkCourse : Course :=
  postInit { name := "X", button_link := some "" }

/-- C9 counterexample: the empty-string `button_link` is not `None`, not
`"#"`, and does not contain `"javascript:void"`, yet `is_accessible` is
false because Python's `bool("")` is falsy. -/
theorem is_accessible_empty_counterexample :
    emptyLinkCourse.button_link = some "" ∧
    ("" : String) ≠ "#" ∧
    pyInStr "javascript:void" "" = false ∧
    emptyLinkCourse.is_accessible = false := by
  decide

/-- C9 (amended): `is_accessible` is true exactly when `button_link` holds
a non-empty string different from `"#"` that does not contain
`"javascript:void"`; it is false for `None`, the empty string, `"#"`, and
links containing the script no-op marker. -/
theorem is_accessible_characterization (c : Course) :
    c.is_accessible = true ↔
      ∃ s, c.button_link = some s ∧ s.data ≠ [] ∧ s ≠ "#" ∧
        pyInStr "javascript:void" s = false := by
  cases hb : c.button_link with
  | none => simp [Course.is_accessible, hb]
  | some s =>
    unfold Course.is_accessible
    rw [hb]
    simp [pyTruthyStr, List.isEmpty_iff, and_assoc]

/-- Witness for C9's amended characterization at a concrete input. -/
theorem is_accessible_characterization_witness :
    (postInit { name := "Y", button_link := some "/ok" }).is_accessible = true :=
  (is_accessible_characterization _).2 ⟨"/ok", rfl, by decide, by decide, by decide⟩

-- ## Claim C10: `course_id` derivation

/-- A course constructed with an explicitly supplied empty `course_id`. -/
def emptyIdCourse : Course :=
  postInit { name := "A", course_id := some "" }

/-- C10 counterexample: constructing a course with the explicitly supplied
`course_id` value `""` does not leave it unchanged — `__post_init__` treats
the falsy empty string as absent and overwrites it with the derived id. -/
theorem course_id_empty_counterexample :
    emptyIdCourse.course_id = some "a" ∧ some "a" ≠ (some "" : Option String) := by
  decide

/-- C10 (amended): when `course_id` is falsy (`None` or `""`) and the name
is non-empty, construction derives the id by lower-casing the name and
replacing every space and hyphen with an underscore (name
`"Data Analytics"` yields `"data_analytics"`); a truthy (non-empty)
explicitly supplied `course_id` is unchanged. -/
theorem course_id_default_derivation (c : Course) :
    (pyTruthyOpt c.course_id = false → pyTruthyStr c.name = true →
      (postInit c).course_id = some (deriveId c.name)) ∧
    (pyTruthyOpt c.course_id = true → (postInit c).course_id = c.course_id) ∧
    deriveId "Data Analytics" = "data_analytics" := by
  refine ⟨?_, ?_, by decide⟩
  · intro h1 h2
    unfold postInit
    rw [h1, h2]
    simp
  · intro h1
    unfold postInit
    rw [h1]
    simp

/-- Witness for C10's amended claim at concrete inputs. -/
theorem course_id_default_derivation_witness :
    (postInit { name := "Data Analytics" }).course_id = some (deriveId "Data Analytics") ∧
    (postInit { name := "B", course_id := some "keep" }).course_id = some "keep" :=
  ⟨(course_id_default_derivation { name := "Data Analytics" }).1 rfl rfl,
   (course_id_default_derivation { name := "B", course_id := some "keep" }).2.1 rfl⟩

-- ## Course discovery (`courses/course_finder.py`)

/-- A dashboard course container as seen by `CourseFinder._parse_course`:
the container element itself is DOM state, so the model records the
observable results of the per-field extraction helpers (`_extract_name`,
`_extract_description`, `_extract_metadata`, `_extract_status`,
`_extract_button_info`, `_extract_icon`), each of which swallows its own
lookup faults and degrades to an absent field. -/
structure Container where
  extractedName : Option String
  extractedDescription : Option String := none
  extractedDate : Option String := none
  extractedDuration : Option String := none
  extractedStatus : String := "Unknown"
  extractedButtonText : Option String := none
  extractedButtonLink : Option String := none
  extractedIcon : Option String := none
deriving DecidableEq, Repr

/-- `CourseFinder._parse_course` (course_finder.py lines 550-590): a
container with no truthy name yields no course; otherwise a `Course` is
built with the finder module's `Platform.ATHENA` as the default tag. -/
def parseCourse (ct : Container) : Option Course :=
  match ct.extractedName with
  | none => none
  | some nm =>
    if !pyTruthyStr nm then none
    else
      some (postInit
        { name := nm
          platform := .finder .ATHENA
          description := ct.extractedDescription
          start_date := ct.extractedDate
          duration := ct.extractedDuration
          status := ct.extractedStatus
          button_text := ct.extractedButtonText
          button_link := ct.extractedButtonLink
          icon_svg := ct.extractedIcon })

/-- `CourseFinder._discover_dashboard_courses` (lines 122-159): parse each
container; a parsed course named `"Professional Foundations"` is re-tagged
with the finder enum's `SAVANNAH`, every other one with the finder enum's
`ATHENA`. -/
def discoverDashboardCourses (containers : List Container) : List Course :=
  containers.filterMap (fun ct =>
    (parseCourse ct).map (fun course =>
      if course.name = "Professional Foundations" then
        { course with platform := .finder .SAVANNAH }
      else
        { course with platform := .finder .ATHENA }))

/-- One `li` item of the Savannah curriculum-switch dropdown as observed by
`CourseFinder._parse_savannah_courses`: extracted name, link target,
optional average text and the active-check marker. -/
structure SavannahItem where
  itemName : Option String
  itemHref : Option String := none
  itemAverage : Option String := none
  itemActive : Bool := false
deriving DecidableEq, Repr

/-- The per-item body of `CourseFinder._parse_savannah_courses`
(lines 426-479): items without a truthy name are skipped; otherwise a
`Course` tagged with the finder enum's `SAVANNAH` is built, with status
`"Current"` when the check icon is present and `"Available"` otherwise. -/
def parseSavannahItem (it : SavannahItem) : Option Course :=
  match it.itemName with
  | none => none
  | some nm =>
    if !pyTruthyStr nm then none
    else
      some (postInit
        { name := nm
          platform := .finder .SAVANNAH
          description := some (match it.itemAverage with
            | some a => if pyTruthyStr a then "Average: " ++ a else "Savannah course"
            | none => "Savannah course")
          status := if it.itemActive then "Current" else "Available"
          button_text := some "View Course"
          button_link := it.itemHref
          metadata := [("average", match it.itemAverage with
              | some a => MetaVal.s a
              | none => MetaVal.null),
            ("is_active", MetaVal.b it.itemActive)] })

/-- `CourseFinder._parse_savannah_courses` over the dropdown items. -/
def parseSavannahCourses (items : List SavannahItem) : List Course :=
  items.filterMap parseSavannahItem

/-- `CourseFinder._discover_savannah_courses` (lines 236-266): when
`_enter_savannah` fails the phase yields zero records, otherwise the
dropdown items are parsed. -/
def discoverSavannahCourses (entered : Bool) (items : List SavannahItem) : List Course :=
  if entered then parseSavannahCourses items else []

/-- `CourseFinder._explore_athena_platforms` (lines 179-201): iterates the
fixed Athena course names, navigating and capturing debug snapshots, but
never appends to its `athena_courses` accumulator — it returns the empty
list. -/
def exploreAthenaPlatforms (athenaNames : List String) : List Course :=
  athenaNames.foldl (fun acc _ => acc) []

/-- The browsing-session observations a discovery run consumes: the
dashboard containers, whether `_enter_savannah` succeeds, the Savannah
dropdown items, and the fixed Athena name list. -/
structure DiscoveryEnv where
  dashboardContainers : List Container
  savannahEntered : Bool := false
  savannahItems : List SavannahItem := []
  athenaNames : List String := ["Data Analytics", "Python", "Machine Learning"]
deriving DecidableEq, Repr

/-- `CourseFinder.find_all_courses` (lines 65-108): dashboard phase always
runs; the Savannah and Athena phases run only when `explore_platforms` is
true; the phase outputs are concatenated in order and wrapped in a
`CourseList`. -/
def findAllCourses (explorePlatforms : Bool) (env : DiscoveryEnv) : CourseList :=
  let dashboardCourses := discoverDashboardCourses env.dashboardContainers
  let allCourses :=
    if explorePlatforms then
      dashboardCourses
        ++ discoverSavannahCourses env.savannahEntered env.savannahItems
        ++ exploreAthenaPlatforms env.athenaNames
    else
      dashboardCourses
  ⟨allCourses, 0⟩

theorem postInit_platform (c : Course) : (postInit c).platform = c.platform := by
  unfold postInit
  split <;> rfl

theorem foldl_const_acc {α β : Type} (l : List α) (init : List β) :
    l.foldl (fun acc _ => acc) init = init := by
  induction l generalizing init with
  | nil => rfl
  | cons x xs ih => exact ih init

theorem exploreAthenaPlatforms_nil (names : List String) :
    exploreAthenaPlatforms names = [] :=
  foldl_const_acc names []

theorem mem_discoverDashboard_tag {c : Course} {containers : List Container}
    (hc : c ∈ discoverDashboardCourses containers) :
    (c.platform = .finder .SAVANNAH ↔ c.name = "Professional Foundations") ∧
    (c.platform = .finder .SAVANNAH ∨ c.platform = .finder .ATHENA) := by
  unfold discoverDashboardCourses at hc
  rw [List.mem_filterMap] at hc
  obtain ⟨ct, _, heq⟩ := hc
  rw [Option.map_eq_some'] at heq
  obtain ⟨c0, _, hover⟩ := heq
  by_cases hname : c0.name = "Professional Foundations"
  · rw [if_pos hname] at hover
    rw [← hover]
    simp [hname]
  · rw [if_neg hname] at hover
    rw [← hover]
    simp [hname]

theorem mem_parseSavannah_tag {c : Course} {items : List SavannahItem}
    (hc : c ∈ parseSavannahCourses items) :
    c.platform = .finder .SAVANNAH := by
  unfold parseSavannahCourses at hc
  rw [List.mem_filterMap] at hc
  obtain ⟨it, _, heq⟩ := hc
  unfold parseSavannahItem at heq
  split at heq
  · exact absurd heq (by simp)
  · split at heq
    · exact absurd heq (by simp)
    · have hc0 := Option.some.inj heq
      rw [← hc0, postInit_platform]

theorem mem_findAllCourses_finder {c : Course} {explore : Bool}
    {env : DiscoveryEnv} (hc : c ∈ (findAllCourses explore env).courses) :
    ∃ p, c.platform = .finder p := by
  cases explore with
  | false =>
    have hd : c ∈ discoverDashboardCourses env.dashboardContainers := hc
    rcases (mem_discoverDashboard_tag hd).2 with h | h
    · exact ⟨_, h⟩
    · exact ⟨_, h⟩
  | true =>
    have hall : c ∈ discoverDashboardCourses env.dashboardContainers
        ++ discoverSavannahCourses env.savannahEntered env.savannahItems
        ++ exploreAthenaPlatforms env.athenaNames := hc
    rw [List.mem_append, List.mem_append] at hall
    rcases hall with (hd | hs) | ha
    · rcases (mem_discoverDashboard_tag hd).2 with h | h
      · exact ⟨_, h⟩
      · exact ⟨_, h⟩
    · unfold discoverSavannahCourses at hs
      by_cases he : env.savannahEntered
      · rw [if_pos he] at hs
        exact ⟨_, mem_parseSavannah_tag hs⟩
      · rw [if_neg he] at hs
        exact absurd hs (List.not_mem_nil c)
    · rw [exploreAthenaPlatforms_nil] at ha
      exact absurd ha (List.not_mem_nil c)

-- ## Claim C1: discovery with `explore_platforms=False`

/-- A dashboard container whose extracted name is the Savannah entry-point
label. -/
def pfContainer : Container :=
  { extractedName := some "Professional Foundations" }

/-- A discovery environment whose dashboard holds only the
"Professional Foundations" container. -/
def c1Env : DiscoveryEnv :=
  { dashboardContainers := [pfContainer] }

/-- C1 counterexample: a run of `find_all_courses` with
`explore_platforms=False` over a dashboard containing a
"Professional Foundations" container returns exactly one record, and that
record is Savannah-tagged — the claim's "zero Savannah-tagged records" is
false, because the dashboard phase itself tags that course as Savannah. -/
theorem find_all_courses_savannah_tag_counterexample :
    ((findAllCourses false c1Env).courses.filter
      (fun c => pyPlatformEq c.platform (.finder .SAVANNAH))).length = 1 ∧
    (findAllCourses false c1Env).courses.length = 1 := by
  decide

/-- C1 (amended): with `explore_platforms=False` every returned record
comes from the dashboard phase (the Savannah phase is skipped and the
Athena sub-phase always contributes zero records even when run), but a
dashboard record is tagged with the finder enum's `SAVANNAH` exactly when
its name is `"Professional Foundations"`, else with the finder enum's
`ATHENA` — so Savannah-tagged records can appear. -/
theorem find_all_courses_no_explore (env : DiscoveryEnv) :
    (findAllCourses false env).courses
      = discoverDashboardCourses env.dashboardContainers ∧
    (∀ names, exploreAthenaPlatforms names = []) ∧
    (∀ c ∈ (findAllCourses false env).courses,
      (c.platform = .finder .SAVANNAH ↔ c.name = "Professional Foundations") ∧
      (c.platform = .finder .SAVANNAH ∨ c.platform = .finder .ATHENA)) := by
  refine ⟨rfl, exploreAthenaPlatforms_nil, ?_⟩
  intro c hc
  exact mem_discoverDashboard_tag hc

/-- Witness for C1's amended claim at a concrete input. -/
theorem find_all_courses_no_explore_witness :
    (findAllCourses false c1Env).courses
      = discoverDashboardCourses c1Env.dashboardContainers :=
  (find_all_courses_no_explore c1Env).1

-- ## Claim C2: the two distinct Platform enums and their consequences

/-- C2 (confirmed): the finder module's `Platform` enum and the data
model's `Platform` enum are distinct types whose members never compare
equal; every course produced by any discovery phase carries a finder-enum
tag; therefore a finder-tagged course (in particular a Savannah-phase one)
with a root-relative `button_link` resolves `full_url` against the main
(ehub) domain, `CourseList.by_platform` applied with a `models.Platform`
argument returns none of the discovered courses, and the per-platform
counts computed by `CourseList.to_dict` are zero. -/
theorem dual_platform_enum_consequences :
    (∀ (x : Finder.Platform) (y : Models.Platform),
      pyPlatformEq (.finder x) (.models y) = false ∧
      pyPlatformEq (.models y) (.finder x) = false) ∧
    (∀ (explore : Bool) (env : DiscoveryEnv),
      ∀ c ∈ (findAllCourses explore env).courses, ∃ p, c.platform = .finder p) ∧
    (∀ (c : Course) (link : String), (∃ p, c.platform = PlatformTag.finder p) →
      c.button_link = some link → pyStartsWith link "/" = true →
      c.full_url = some (ehubBase ++ link)) ∧
    (∀ (explore : Bool) (env : DiscoveryEnv) (p : Models.Platform),
      (findAllCourses explore env).by_platform (.models p) = []) ∧
    (∀ (explore : Bool) (env : DiscoveryEnv),
      (findAllCourses explore env).platform_counts = (0, 0)) := by
  have hmix : ∀ (x : Finder.Platform) (y : Models.Platform),
      pyPlatformEq (.finder x) (.models y) = false ∧
      pyPlatformEq (.models y) (.finder x) = false := by
    intro x y
    exact ⟨rfl, rfl⟩
  have hfinder : ∀ (explore : Bool) (env : DiscoveryEnv),
      ∀ c ∈ (findAllCourses explore env).courses, ∃ p, c.platform = .finder p :=
    fun _ _ _ hc => mem_findAllCourses_finder hc
  have hby : ∀ (explore : Bool) (env : DiscoveryEnv) (p : Models.Platform),
      (findAllCourses explore env).by_platform (.models p) = [] := by
    intro explore env p
    unfold CourseList.by_platform
    rw [List.filter_eq_nil_iff]
    intro c hc
    obtain ⟨q, hq⟩ := hfinder explore env c hc
    rw [hq]
    exact fun h => absurd ((hmix q p).1) (by simp [h])
  refine ⟨hmix, hfinder, ?_, hby, ?_⟩
  · intro c link ⟨p, hp⟩ hb hs
    have ht := pyStartsWith_slash_truthy hs
    have hh := pyStartsWith_slash_ne_http hs
    have hq : pyPlatformEq c.platform (.models .SAVANNAH) = false := by
      rw [hp]
      exact (hmix p .SAVANNAH).1
    unfold Course.full_url
    rw [hb]
    simp [ht, hh, hs, hq]
  · intro explore env
    unfold CourseList.platform_counts
    rw [hby explore env .ATHENA, hby explore env .SAVANNAH]
    rfl

/-- A discovery environment exercising all three phases, including a
successful Savannah entry. -/
def c2Env : DiscoveryEnv :=
  { dashboardContainers := [pfContainer,
      { extractedName := some "Data Analytics", extractedButtonLink := some "/da" }]
    savannahEntered := true
    savannahItems := [{ itemName := some "PF Course", itemHref := some "/pf1",
                        itemActive := true }] }

/-- Witness for C2 at a concrete input: a fully explored discovery run
still yields nothing for `by_platform` with a data-model enum argument,
and a finder-tagged course with a root-relative link resolves to the ehub
domain. -/
theorem dual_platform_enum_consequences_witness :
    (findAllCourses true c2Env).by_platform (.models .SAVANNAH) = [] ∧
    (findAllCourses true c2Env).platform_counts = (0, 0) :=
  ⟨dual_platform_enum_consequences.2.2.2.1 true c2Env .SAVANNAH,
   dual_platform_enum_consequences.2.2.2.2 true c2Env⟩

-- ## Authentication (`auth/login_manager.py`)

/-- A DOM element as observed by the liveness probe: whether
`is_displayed()` holds and its `.text`. -/
structure Elem where
  displayed : Bool
  text : String
deriving DecidableEq, Repr

/-- The browsing-session state the liveness probe
`LoginManager._is_authenticated` reads: the current URL, the page source
(lower-cased by the probe but never used afterwards), and the result of
each of its five element queries.  Each probe step in the source is
fault-tolerant — a failed DOM query is observationally an empty result
list, which is how faults are modelled here. -/
structure PageState where
  currentUrl : String
  pageSource : String := ""
  profileImages : List Elem := []
  greetings : List Elem := []
  points : List Elem := []
  notifications : List Elem := []
  loginForms : List Elem := []
deriving DecidableEq, Repr

/-- `LoginManager._is_authenticated` (login_manager.py lines 117-174):
a login/signin marker in the lower-cased URL short-circuits to false;
then, first-match-wins: visible profile image, visible "Hello" greeting,
visible numeric points badge, notification circle, and finally absence of
a login form. -/
def isAuthenticated (s : PageState) : Bool :=
  let url := pyLower s.currentUrl
  if pyInStr "login" url || pyInStr "signin" url then false
  else if (match s.profileImages with
      | [] => false
      | e :: _ => e.displayed) then true
  else if (match s.greetings with
      | [] => false
      | e :: _ => e.displayed && pyInStr "Hello" e.text) then true
  else if (match s.points with
      | [] => false
      | e :: _ => e.displayed && pyIsDigitStr e.text) then true
  else if !s.notifications.isEmpty then true
  else if s.loginForms.isEmpty then true
  else false

-- ## Claim C5: the profile-photo indicator

/-- A page state on the login URL that nevertheless shows a visible
profile-photo element. -/
def loginUrlWithPhoto : PageState :=
  { currentUrl := "https://ehub.alxafrica.com/login"
    profileImages := [{ displayed := true, text := "" }]
    loginForms := [{ displayed := true, text := "" }] }

/-- C5 counterexample: a state with a visible profile-photo element whose
current URL contains the login marker is reported NOT authenticated — the
URL check short-circuits before the profile-photo check, so the probe is
not independent of the current URL. -/
theorem is_authenticated_profile_counterexample :
    loginUrlWithPhoto.profileImages = [{ displayed := true, text := "" }] ∧
    isAuthenticated loginUrlWithPhoto = false := by
  decide

/-- C5 (amended): whenever the lower-cased current URL contains neither a
login nor a signin marker and the first profile-photo element is visible,
the probe returns authenticated regardless of every other indicator; a
login/signin URL short-circuits all indicators to not-authenticated. -/
theorem is_authenticated_profile_photo (s : PageState) (e : Elem)
    (rest : List Elem)
    (hlogin : pyInStr "login" (pyLower s.currentUrl) = false)
    (hsignin : pyInStr "signin" (pyLower s.currentUrl) = false)
    (himg : s.profileImages = e :: rest)
    (hdisp : e.displayed = true) :
    isAuthenticated s = true := by
  simp [isAuthenticated, hlogin, hsignin, himg, hdisp]

/-- A dashboard-URL page state with a visible profile photo and every
other indicator negative. -/
def dashWithPhoto : PageState :=
  { currentUrl := "https://ehub.alxafrica.com"
    profileImages := [{ displayed := true, text := "" }]
    loginForms := [{ displayed := true, text := "" }] }

/-- Witness for C5's amended claim at a concrete input. -/
theorem is_authenticated_profile_photo_witness :
    isAuthenticated dashWithPhoto = true :=
  is_authenticated_profile_photo dashWithPhoto
    { displayed := true, text := "" } [] (by decide) (by decide) rfl rfl

-- ## Claim C6: `_perform_login` failure semantics

/-- `AuthStatus` enum (login_manager.py lines 26-32). -/
inductive AuthStatus
  | AUTHENTICATED
  | SESSION_RESTORED
  | LOGIN_FAILED
  | INVALID_CREDENTIALS
  | SESSION_EXPIRED
deriving DecidableEq, Repr

/-- The `AuthResult` dataclass (login_manager.py lines 48-54); the session
file location is modelled by its path string. -/
structure AuthResult where
  status : AuthStatus
  message : String
  user_id : Option String := none
  session_file : Option String := none
deriving DecidableEq, Repr

/-- `SessionInfo` dataclass (login_manager.py lines 34-46); the ISO
timestamp strings are modelled as `Nat` instants. -/
structure SessionInfo where
  user_id : String
  email : String
  created_at : Nat
  last_used : Nat
  expires_at : Nat
deriving DecidableEq, Repr

/-- `SessionManager._get_user_dir`'s identity sanitisation
(login_manager.py line 478): lower-case the email and replace `@` with
`_at_` and `.` with `_dot_`. -/
def sanitizeEmail (email : String) : String :=
  ⟨(pyLower email).data.flatMap (fun c =>
    if c = '@' then "_at_".data
    else if c = '.' then "_dot_".data
    else [c])⟩

/-- The outcomes of the selenium-backed sub-steps that
`LoginManager._perform_login` executes inside its `try` block.  Each
sub-step may raise (modelled by `Except.error` carrying `str(e)`); the
form-wait/fill/submit/probe helpers normally return a boolean. -/
structure LoginEnv where
  email : String
  navigate : Except String Unit
  waitForm : Except String Bool
  fillCreds : Except String Bool
  submitForm : Except String Bool
  checkAuth : Except String Bool
  saveSession : Except String SessionInfo
deriving Repr

/-- The body of the `try` block of `LoginManager._perform_login`
(login_manager.py lines 178-269): navigate to the login URL, wait for the
form, fill the credentials, submit, re-probe, and on success persist the
session; each boolean failure produces its dedicated `LOGIN_FAILED`
result. -/
def performLoginTry (env : LoginEnv) : Except String AuthResult := do
  let _ ← env.navigate
  let formOk ← env.waitForm
  if !formOk then
    return { status := .LOGIN_FAILED, message := "Login form not found" }
  let fillOk ← env.fillCreds
  if !fillOk then
    return { status := .LOGIN_FAILED, message := "Could not fill login form" }
  let submitOk ← env.submitForm
  if !submitOk then
    return { status := .LOGIN_FAILED, message := "Could not submit login form" }
  let authed ← env.checkAuth
  if authed then
    let info ← env.saveSession
    return { status := .AUTHENTICATED
             message := "Login successful for " ++ env.email
             user_id := some info.user_id
             session_file := some ("data/sessions/" ++ sanitizeEmail env.email
               ++ "/session.pkl") }
  else
    return { status := .LOGIN_FAILED, message := "Still not authenticated after login" }

/-- `LoginManager._perform_login` with its top-level `except` handler
(lines 271-276): any exception escaping the body is caught and converted
to a `LOGIN_FAILED` result carrying `"Login error: " + str(e)`; the caller
therefore never observes a raised exception. -/
def performLogin (env : LoginEnv) : Except String AuthResult :=
  match performLoginTry env with
  | .ok r => .ok r
  | .error e => .ok { status := .LOGIN_FAILED, message := "Login error: " ++ e }

/-- C6 (confirmed): `_perform_login` always returns a typed outcome (never
propagates an exception), and whenever any sub-step of its body throws,
the returned outcome is `LOGIN_FAILED` carrying the underlying message. -/
theorem perform_login_catches (env : LoginEnv) :
    ∃ r : AuthResult, performLogin env = .ok r ∧
      ∀ m, performLoginTry env = .error m →
        r = { status := .LOGIN_FAILED, message := "Login error: " ++ m } := by
  unfold performLogin
  cases h : performLoginTry env with
  | ok r =>
    refine ⟨r, rfl, ?_⟩
    intro m hm
    exact absurd hm (by simp)
  | error e =>
    refine ⟨{ status := .LOGIN_FAILED, message := "Login error: " ++ e }, rfl, ?_⟩
    intro m hm
    rw [Except.error.inj hm]

/-- An environment whose navigation sub-step throws. -/
def navThrowsEnv : LoginEnv :=
  { email := "u@x.co"
    navigate := .error "net down"
    waitForm := .ok true
    fillCreds := .ok true
    submitForm := .ok true
    checkAuth := .ok true
    saveSession := .ok { user_id := "abc", email := "u@x.co",
                         created_at := 0, last_used := 0, expires_at := 0 } }

/-- Witness for C6 at a concrete input: a thrown navigation error becomes
a `LOGIN_FAILED` outcome carrying the message. -/
theorem perform_login_catches_witness :
    performLogin navThrowsEnv
      = .ok { status := .LOGIN_FAILED, message := "Login error: net down" } := by
  obtain ⟨r, hok, herr⟩ := perform_login_catches navThrowsEnv
  rw [hok, herr "net down" rfl]
  rfl

-- ## Session store (`SessionManager`, login_manager.py lines 465-667)

/-- The content of one file in a per-identity session directory: either a
pickled cookie list (`session.pkl` and its archives) or the JSON metadata
document (`metadata.json`).  `json.dump(asdict(info))` followed by
`SessionInfo(**json.load(f))` round-trips the five fields exactly, so the
metadata file stores the record itself. -/
inductive Entry
  | cookies : List (String × String) → Entry
  | metadata : SessionInfo → Entry
deriving DecidableEq, Repr

/-- The per-identity session directory: whether it exists on disk and its
files, as an association of file name to content. -/
structure UserStore where
  dirExists : Bool
  files : List (String × Entry)
deriving DecidableEq, Repr

/-- Reading the file with the given name, if present. -/
def fsLookup {α : Type} (n : String) : List (String × α) → Option α
  | [] => none
  | p :: rest => if p.1 = n then some p.2 else fsLookup n rest

/-- Deleting the file with the given name (`Path.unlink`). -/
def fsErase {α : Type} (n : String) : List (String × α) → List (String × α)
  | [] => []
  | p :: rest => if p.1 = n then fsErase n rest else p :: fsErase n rest

/-- Creating or overwriting the file with the given name. -/
def fsWrite {α : Type} (n : String) (e : α) (fs : List (String × α)) :
    List (String × α) :=
  (n, e) :: fsErase n fs

/-- Number of files carrying the given name. -/
def countName {α : Type} (n : String) : List (String × α) → Nat
  | [] => 0
  | p :: rest => if p.1 = n then countName n rest + 1 else countName n rest

/-- `SessionManager._get_session_file(email, archive=True)` file name
(lines 483-491): `f"session_{timestamp}.pkl"`, with the strftime
timestamp rendered from the `Nat` instant. -/
def archiveName (now : Nat) : String :=
  "session_" ++ toString now ++ ".pkl"

/-- The 7-day expiry horizon (`timedelta(days=7)`) in seconds. -/
def sevenDays : Nat := 7 * 24 * 60 * 60

/-- `SessionManager.save_session` (lines 497-537): archive any existing
current cookie artifact under the timestamped name, write the fresh
cookie set to `session.pkl`, and write the metadata record whose
`user_id` is the first 12 hex characters of the identity's content hash
(`hashlib.md5(email.encode()).hexdigest()[:12]`, with the digest modelled
by the `hashHex` parameter).  `_get_user_dir` creates the directory. -/
def save_session (hashHex : String → String) (cookies : List (String × String))
    (now : Nat) (email : String) (st : UserStore) : SessionInfo × UserStore :=
  let files1 := match fsLookup "session.pkl" st.files with
    | some b => fsWrite (archiveName now) b (fsErase "session.pkl" st.files)
    | none => st.files
  let files2 := fsWrite "session.pkl" (.cookies cookies) files1
  let info : SessionInfo :=
    { user_id := pyTake (hashHex email) 12
      email := email
      created_at := now
      last_used := now
      expires_at := now + sevenDays }
  let files3 := fsWrite "metadata.json" (.metadata info) files2
  (info, { dirExists := true, files := files3 })

/-- `SessionManager.clear_session` (lines 612-647): delete the current
cookie artifact and the metadata artifact if present, then remove the
identity directory when (and only when) it is empty afterwards. -/
def clear_session (email : String) (st : UserStore) : Bool × UserStore :=
  let files1 := fsErase "session.pkl" st.files
  let files2 := fsErase "metadata.json" files1
  (true, { dirExists := !files2.isEmpty, files := files2 })

/-- `SessionManager.load_session` (lines 539-610): absent when either
artifact is missing or the metadata does not parse; when the record is
expired (`now > expires_at`), clear the session and return absent;
otherwise replay the cookies into the driver (browser I/O, outside this
state), update `last_used`, rewrite the metadata, and return the record. -/
def load_session (now : Nat) (email : String) (st : UserStore) :
    Option SessionInfo × UserStore :=
  let st1 : UserStore := { dirExists := true, files := st.files }
  match fsLookup "session.pkl" st1.files, fsLookup "metadata.json" st1.files with
  | none, _ => (none, st1)
  | some _, none => (none, st1)
  | some sessEntry, some metaEntry =>
    match metaEntry with
    | .cookies _ => (none, st1)
    | .metadata info =>
      if now > info.expires_at then
        (none, (clear_session email st1).2)
      else
        match sessEntry with
        | .metadata _ => (none, st1)
        | .cookies _ =>
          let info2 := { info with last_used := now }
          (some info2,
           { dirExists := true
             files := fsWrite "metadata.json" (.metadata info2) st1.files })

/-- Repeated `save_session` calls in order. -/
def applySaves (hashHex : String → String) (email : String)
    (seq : List (List (String × String) × Nat)) (st : UserStore) : UserStore :=
  seq.foldl (fun s p => (save_session hashHex p.1 p.2 email s).2) st

-- Filesystem lemmas.

theorem fsLookup_write_same {α : Type} (n : String) (e : α)
    (fs : List (String × α)) : fsLookup n (fsWrite n e fs) = some e := by
  simp [fsWrite, fsLookup]

theorem fsLookup_erase_ne {α : Type} {m n : String} (h : n ≠ m)
    (fs : List (String × α)) : fsLookup m (fsErase n fs) = fsLookup m fs := by
  induction fs with
  | nil => rfl
  | cons p rest ih =>
    by_cases hp : p.1 = n
    · have hpm : ¬ p.1 = m := fun hc => h (hp.symm.trans hc)
      rw [show fsErase n (p :: rest) = fsErase n rest by simp [fsErase, hp], ih]
      simp [fsLookup, hpm]
    · rw [show fsErase n (p :: rest) = p :: fsErase n rest by simp [fsErase, hp]]
      by_cases hm : p.1 = m
      · simp [fsLookup, hm]
      · simp [fsLookup, hm, ih]

theorem fsLookup_erase_same {α : Type} (n : String)
    (fs : List (String × α)) : fsLookup n (fsErase n fs) = none := by
  induction fs with
  | nil => rfl
  | cons p rest ih =>
    by_cases hp : p.1 = n
    · simpa [fsErase, hp] using ih
    · simpa [fsErase, fsLookup, hp] using ih

theorem fsLookup_write_ne {α : Type} {m n : String} (h : n ≠ m) (e : α)
    (fs : List (String × α)) :
    fsLookup m (fsWrite n e fs) = fsLookup m fs := by
  simp [fsWrite, fsLookup, h, fsLookup_erase_ne h fs]

theorem countName_erase_ne {α : Type} {m n : String} (h : n ≠ m)
    (fs : List (String × α)) : countName m (fsErase n fs) = countName m fs := by
  induction fs with
  | nil => rfl
  | cons p rest ih =>
    by_cases hp : p.1 = n
    · have hpm : ¬ p.1 = m := fun hc => h (hp.symm.trans hc)
      rw [show fsErase n (p :: rest) = fsErase n rest by simp [fsErase, hp], ih]
      simp [countName, hpm]
    · rw [show fsErase n (p :: rest) = p :: fsErase n rest by simp [fsErase, hp]]
      by_cases hm : p.1 = m
      · simp [countName, hm, ih]
      · simp [countName, hm, ih]

theorem countName_erase_same {α : Type} (n : String)
    (fs : List (String × α)) : countName n (fsErase n fs) = 0 := by
  induction fs with
  | nil => rfl
  | cons p rest ih =>
    by_cases hp : p.1 = n
    · simpa [fsErase, hp] using ih
    · simpa [fsErase, countName, hp] using ih

theorem countName_write_same {α : Type} (n : String) (e : α)
    (fs : List (String × α)) : countName n (fsWrite n e fs) = 1 := by
  simp [fsWrite, countName, countName_erase_same n fs]

theorem countName_write_ne {α : Type} {m n : String} (h : n ≠ m) (e : α)
    (fs : List (String × α)) :
    countName m (fsWrite n e fs) = countName m fs := by
  simp [fsWrite, countName, h, countName_erase_ne h fs]

theorem strData_append (a b : String) : (a ++ b).data = a.data ++ b.data := rfl

theorem archiveName_ne_current (t : Nat) : archiveName t ≠ "session.pkl" := by
  intro h
  have hlen : ((archiveName t).data).length = (("session.pkl" : String).data).length := by
    rw [h]
  simp only [archiveName, strData_append, List.length_append] at hlen
  have h1 : ("session_".data).length = 8 := rfl
  have h2 : (".pkl".data).length = 4 := rfl
  have h3 : ("session.pkl".data).length = 11 := rfl
  rw [h1, h2, h3] at hlen
  omega

theorem archiveName_ne_metadata (t : Nat) : archiveName t ≠ "metadata.json" := by
  intro h
  have h2 : ((archiveName t).data).head? = some 'm' := by rw [h]; rfl
  have hL : ((archiveName t).data).head? = some 's' := rfl
  rw [hL] at h2
  exact absurd h2 (by decide)

-- ## Claim C3: save then load round-trip

/-- C3 (confirmed): saving a session and loading it back with the clock
still before the stored `expires_at` (and the artifacts untouched in
between) yields a record with the same identity, a `user_id` equal to the
first 12 hex characters of the identity's content hash, and `last_used`
refreshed to the load instant. -/
theorem save_then_load_roundtrip (hashHex : String → String) (email : String)
    (cookies : List (String × String)) (t0 t1 : Nat) (st0 : UserStore)
    (hclock : t1 < t0 + sevenDays) :
    (load_session t1 email (save_session hashHex cookies t0 email st0).2).1
      = some { user_id := pyTake (hashHex email) 12, email := email,
               created_at := t0, last_used := t1,
               expires_at := t0 + sevenDays } := by
  have hsess : fsLookup "session.pkl"
      (save_session hashHex cookies t0 email st0).2.files
      = some (Entry.cookies cookies) := by
    unfold save_session
    dsimp only
    rw [fsLookup_write_ne (by decide : ("metadata.json" : String) ≠ "session.pkl"),
      fsLookup_write_same]
  have hmeta : fsLookup "metadata.json"
      (save_session hashHex cookies t0 email st0).2.files
      = some (Entry.metadata
          { user_id := pyTake (hashHex email) 12, email := email,
            created_at := t0, last_used := t0,
            expires_at := t0 + sevenDays }) := by
    unfold save_session
    dsimp only
    rw [fsLookup_write_same]
  unfold load_session
  dsimp only
  rw [hsess, hmeta]
  dsimp only
  rw [if_neg (by omega : ¬ (t1 > t0 + sevenDays))]

/-- A fixed stand-in for the MD5 hex digest in witnesses. -/
def hashEx : String → String := fun _ => "0123456789abcdef"

/-- Witness for C3 at a concrete input. -/
theorem save_then_load_roundtrip_witness :
    (load_session 10 "a@b.c"
        (save_session hashEx [("sid", "v")] 0 "a@b.c" ⟨false, []⟩).2).1
      = some { user_id := pyTake (hashEx "a@b.c") 12, email := "a@b.c",
               created_at := 0, last_used := 10, expires_at := 0 + sevenDays } :=
  save_then_load_roundtrip hashEx "a@b.c" [("sid", "v")] 0 10 ⟨false, []⟩ (by decide)

-- ## Claim C4: loading an expired session

/-- An expired metadata record used in the C4 counterexample. -/
def expiredMetaEx : SessionInfo :=
  { user_id := "u", email := "a@b.c", created_at := 0, last_used := 0,
    expires_at := 10 }

/-- A store holding an expired current session, its metadata, and one
archived session file. -/
def expiredStoreWithArchive : UserStore :=
  { dirExists := true
    files := [("session.pkl", .cookies [("sid", "1")]),
              ("metadata.json", .metadata expiredMetaEx),
              ("session_0.pkl", .cookies [("sid", "0")])] }

/-- C4 counterexample: loading an expired session returns absent, but when
an archived session file also exists for the identity, the archive and the
identity directory both survive — "no persisted artifacts remain" is
false. -/
theorem load_session_expired_counterexample :
    (load_session 20 "a@b.c" expiredStoreWithArchive).1 = none ∧
    (load_session 20 "a@b.c" expiredStoreWithArchive).2.dirExists = true ∧
    fsLookup "session_0.pkl" (load_session 20 "a@b.c" expiredStoreWithArchive).2.files
      = some (.cookies [("sid", "0")]) := by
  decide

/-- C4 (amended): loading a session whose stored `expires_at` is strictly
in the past returns absent and deletes the current cookie artifact and the
metadata artifact; the identity directory is removed exactly when nothing
else (such as an archived session) remains in it afterwards — only in
that case do no artifacts remain for the identity. -/
theorem load_session_expired (now : Nat) (email : String) (st : UserStore)
    (info : SessionInfo) (e : Entry)
    (hsess : fsLookup "session.pkl" st.files = some e)
    (hmeta : fsLookup "metadata.json" st.files = some (.metadata info))
    (hexp : now > info.expires_at) :
    (load_session now email st).1 = none ∧
    (load_session now email st).2.files
      = fsErase "metadata.json" (fsErase "session.pkl" st.files) ∧
    fsLookup "session.pkl" (load_session now email st).2.files = none ∧
    fsLookup "metadata.json" (load_session now email st).2.files = none ∧
    (load_session now email st).2.dirExists
      = !(fsErase "metadata.json" (fsErase "session.pkl" st.files)).isEmpty := by
  have hld : load_session now email st
      = (none,
         { dirExists :=
             !(fsErase "metadata.json" (fsErase "session.pkl" st.files)).isEmpty
           files := fsErase "metadata.json" (fsErase "session.pkl" st.files) }) := by
    unfold load_session
    dsimp only
    rw [hsess, hmeta]
    dsimp only
    rw [if_pos hexp]
    rfl
  refine ⟨by rw [hld], by rw [hld], ?_, ?_, by rw [hld]⟩
  · rw [hld]
    show fsLookup "session.pkl"
      (fsErase "metadata.json" (fsErase "session.pkl" st.files)) = none
    rw [fsLookup_erase_ne (by decide : ("metadata.json" : String) ≠ "session.pkl"),
      fsLookup_erase_same]
  · rw [hld]
    show fsLookup "metadata.json"
      (fsErase "metadata.json" (fsErase "session.pkl" st.files)) = none
    rw [fsLookup_erase_same]

/-- A store holding only an expired current session and its metadata. -/
def expiredStoreNoArchive : UserStore :=
  { dirExists := true
    files := [("session.pkl", .cookies [("sid", "1")]),
              ("metadata.json", .metadata expiredMetaEx)] }

/-- Witness for C4's amended claim at a concrete input. -/
theorem load_session_expired_witness :
    (load_session 20 "a@b.c" expiredStoreNoArchive).1 = none ∧
    fsLookup "session.pkl" (load_session 20 "a@b.c" expiredStoreNoArchive).2.files
      = none :=
  ⟨(load_session_expired 20 "a@b.c" expiredStoreNoArchive expiredMetaEx
      (.cookies [("sid", "1")]) rfl rfl (by decide)).1,
   (load_session_expired 20 "a@b.c" expiredStoreNoArchive expiredMetaEx
      (.cookies [("sid", "1")]) rfl rfl (by decide)).2.2.1⟩

-- ## Claim C7: at most one current session artifact

theorem countCurrent_save (hashHex : String → String)
    (cookies : List (String × String)) (now : Nat) (email : String)
    (st : UserStore) :
    countName "session.pkl" (save_session hashHex cookies now email st).2.files
      = 1 := by
  unfold save_session
  dsimp only
  rw [countName_write_ne (by decide : ("metadata.json" : String) ≠ "session.pkl"),
    countName_write_same]

theorem applySaves_cons_exact (hashHex : String → String) (email : String)
    (x : List (String × String) × Nat) (xs : List (List (String × String) × Nat))
    (st : UserStore) :
    countName "session.pkl" (applySaves hashHex email (x :: xs) st).files = 1 := by
  induction xs generalizing x st with
  | nil => exact countCurrent_save hashHex x.1 x.2 email st
  | cons y ys ih => exact ih y (save_session hashHex x.1 x.2 email st).2

theorem save_session_archive (hashHex : String → String)
    (cookies : List (String × String)) (now : Nat) (email : String)
    (st : UserStore) (b : Entry)
    (hprev : fsLookup "session.pkl" st.files = some b) :
    fsLookup (archiveName now)
      (save_session hashHex cookies now email st).2.files = some b := by
  unfold save_session
  dsimp only
  rw [hprev]
  dsimp only
  rw [fsLookup_write_ne (archiveName_ne_metadata now).symm,
    fsLookup_write_ne (archiveName_ne_current now).symm,
    fsLookup_write_same]

/-- C7 (confirmed): after any sequence of `save_session` calls there is at
most one current (non-archived) `session.pkl` artifact for the identity
(exactly one once at least one save has happened); in particular, saving
twice from an empty store renames the first cookie artifact to the
timestamped archive name — which differs from the current artifact's
name — and leaves exactly one current artifact. -/
theorem save_session_single_current (hashHex : String → String) (email : String)
    (c1 c2 : List (String × String)) (t1 t2 : Nat) (st0 : UserStore)
    (h0 : countName "session.pkl" st0.files ≤ 1) :
    (∀ seq, countName "session.pkl" (applySaves hashHex email seq st0).files ≤ 1) ∧
    countName "session.pkl"
      ((save_session hashHex c2 t2 email
        (save_session hashHex c1 t1 email ⟨false, []⟩).2).2).files = 1 ∧
    fsLookup (archiveName t2)
      ((save_session hashHex c2 t2 email
        (save_session hashHex c1 t1 email ⟨false, []⟩).2).2).files
      = some (.cookies c1) ∧
    archiveName t2 ≠ "session.pkl" := by
  refine ⟨?_, countCurrent_save hashHex c2 t2 email _, ?_, archiveName_ne_current t2⟩
  · intro seq
    cases seq with
    | nil => exact h0
    | cons x xs => exact (applySaves_cons_exact hashHex email x xs st0).le
  · refine save_session_archive hashHex c2 t2 email _ (.cookies c1) ?_
    unfold save_session
    dsimp only
    rw [fsLookup_write_ne (by decide : ("metadata.json" : String) ≠ "session.pkl"),
      fsLookup_write_same]

/-- Witness for C7 at concrete inputs. -/
theorem save_session_single_current_witness :
    countName "session.pkl"
      ((save_session hashEx [("b", "2")] 2 "a@b.c"
        (save_session hashEx [("a", "1")] 1 "a@b.c" ⟨false, []⟩).2).2).files = 1 ∧
    fsLookup (archiveName 2)
      ((save_session hashEx [("b", "2")] 2 "a@b.c"
        (save_session hashEx [("a", "1")] 1 "a@b.c" ⟨false, []⟩).2).2).files
      = some (.cookies [("a", "1")]) := by
  have h := save_session_single_current hashEx "a@b.c" [("a", "1")] [("b", "2")]
    1 2 ⟨false, []⟩ (by decide)
  exact ⟨h.2.1, h.2.2.1⟩
